import Mathlib

/-!
# ThreeJS_3D_Text: the scene script `src/script.js`

A shallow embedding of the glue code of `src/script.js`: the module-level
variables become one `State` record, every callback (font load, resize,
pointermove, click, tick) becomes a function on that record.

Conventions of the embedding.

* JavaScript numbers are modelled as exact rationals (`ℚ`); `Math.ceil`
  is `Int.ceil`, the constant `Math.PI` is the rational value of its
  IEEE double.
* `Math.random()` is an oracle `rnd : ℕ → ℚ`: the `k`-th call of the
  session returns `rnd k`; the state counts the calls made so far.
* `controls.update()` belongs to the orbit-controller library; it is a
  parameter `update : σ → Vec3 → σ × Vec3` acting on the controller's own
  state `σ` and on the camera position.
* The calls that `tick` makes to the host and to the libraries are
  recorded, in program order, in the field `frameLog`.
-/

namespace ThreeText

/-! ## Data model -/

/-- A `THREE.Vector2`. -/
structure Vec2 where
  x : ℚ
  y : ℚ
deriving DecidableEq

/-- A `THREE.Vector3` (also used for the x, y, z of an Euler rotation). -/
structure Vec3 where
  x : ℚ
  y : ℚ
  z : ℚ
deriving DecidableEq

/-- Geometries built by the font-load callback. -/
inductive Geometry where
  /-- `new TextGeometry(content, ...)`, centred. -/
  | text (content : String)
  /-- `new THREE.TorusGeometry(radius, tube, radialSegments, tubularSegments)`. -/
  | torus (radius tube : ℚ) (radialSegments tubularSegments : ℕ)
deriving DecidableEq

/-- The two shared materials (a mesh holds a reference to one of them). -/
inductive Material where
  | textMaterial
  | donutMaterial
deriving DecidableEq

/-- A `THREE.Mesh` with its transform. -/
structure Mesh where
  geometry : Geometry
  material : Material
  position : Vec3
  rotation : Vec3
  scale : Vec3
deriving DecidableEq

/-- What `scene.add` can receive in this program. -/
inductive Object3D where
  | axesHelper
  | camera
  | mesh (m : Mesh)
deriving DecidableEq

/-- The module-level object `sizes`. -/
structure Sizes where
  width : ℚ
  height : ℚ
  halfWidth : ℚ
  halfHeight : ℚ
deriving DecidableEq

/-- The perspective camera: position, `aspect`, and the aspect value read by
the latest `updateProjectionMatrix()` call (the matrix is library output;
`aspect` is the only one of its inputs this program writes). -/
structure Camera where
  position : Vec3
  aspect : ℚ
  projectionAspect : ℚ
deriving DecidableEq

/-- What `setSize` and `setPixelRatio` store in the renderer. -/
structure Renderer where
  width : ℚ
  height : ℚ
  pixelRatio : ℚ
deriving DecidableEq

/-- The fields of the host `window` that the script reads. -/
structure Window where
  innerWidth : ℚ
  innerHeight : ℚ
  devicePixelRatio : ℚ
deriving DecidableEq

/-- The fields of a pointer event that the script reads. -/
structure PointerEvent where
  isPrimary : Bool
  clientX : ℚ
  clientY : ℚ
deriving DecidableEq

/-- Calls made by `tick`, in program order. -/
inductive Effect where
  /-- `clock.getElapsedTime()`. -/
  | getElapsedTime
  /-- `controls.update()`. -/
  | controlsUpdate
  /-- `renderer.render(scene, camera)`, with the camera position at the call. -/
  | render (cameraPosition : Vec3)
  /-- `window.requestAnimationFrame(tick)`. -/
  | requestAnimationFrame
deriving DecidableEq

/-- The module-level mutable state of `script.js`; `σ` is the state of the
orbit controller. -/
structure State (σ : Type) where
  scene : List Object3D
  matcapIndex : ℤ
  matcapImageSrc : String
  donutMatcapIndex : ℤ
  donutMatcapImageSrc : String
  sizes : Sizes
  camera : Camera
  controls : σ
  renderer : Renderer
  mouse : Vec2
  randomCalls : ℕ
  frameLog : List Effect

variable {σ : Type}

/-! ## Constants -/

/-- The constant `matcapURLBase`. -/
def matcapURLBase : String := "/textures/matcaps/"

/-- The constant `Math.PI`: the double nearest to π, as an exact rational. -/
def MathPI : ℚ := 884279719003555 / 281474976710656

/-- The path expression `matcapURLBase + index + ".png"`. -/
def matcapPath (index : ℤ) : String :=
  matcapURLBase ++ toString index ++ ".png"

/-- The call `new THREE.TorusGeometry(0.3, 0.2, 20, 45)`. -/
def donutGeometry : Geometry := Geometry.torus 0.3 0.2 20 45

/-- The text mesh `new THREE.Mesh(textGeometry, textMaterial)`, default transform. -/
def textMesh : Mesh :=
  { geometry := Geometry.text "Click to change"
    material := Material.textMaterial
    position := ⟨0, 0, 0⟩
    rotation := ⟨0, 0, 0⟩
    scale := ⟨1, 1, 1⟩ }

/-! ## Module start -/

/-- The state once the module body has run (before `tick()` on the last line
and before any callback): scene holding the axes helper and the camera, both
indices 3, sizes read from the window, camera at (1, 1, 2). -/
def init (w : Window) (c : σ) : State σ :=
  { scene := [Object3D.axesHelper, Object3D.camera]
    matcapIndex := 3
    matcapImageSrc := matcapPath 3
    donutMatcapIndex := 3
    donutMatcapImageSrc := matcapPath 3
    sizes :=
      { width := w.innerWidth
        height := w.innerHeight
        halfWidth := w.innerWidth / 2
        halfHeight := w.innerHeight / 2 }
    camera :=
      { position := ⟨1, 1, 2⟩
        aspect := w.innerWidth / w.innerHeight
        projectionAspect := w.innerWidth / w.innerHeight }
    controls := c
    renderer :=
      { width := w.innerWidth
        height := w.innerHeight
        pixelRatio := min w.devicePixelRatio 2 }
    mouse := ⟨0, 0⟩
    randomCalls := 0
    frameLog := [] }

/-! ## Random draws and the font-load callback -/

/-- One call of `Math.random()`: the next value of the oracle. -/
def mathRandom (rnd : ℕ → ℚ) (s : State σ) : ℚ × State σ :=
  (rnd s.randomCalls, { s with randomCalls := s.randomCalls + 1 })

/-- The call `scene.add(o)`. -/
def sceneAdd (o : Object3D) (s : State σ) : State σ :=
  { s with scene := s.scene ++ [o] }

/-- Body of the loop `for (let i = 0; i < 1000; i++)`: six draws, one mesh. -/
def donutBody (rnd : ℕ → ℚ) (s : State σ) : State σ :=
  let (r1, s1) := mathRandom rnd s
  let (r2, s2) := mathRandom rnd s1
  let (r3, s3) := mathRandom rnd s2
  let (r4, s4) := mathRandom rnd s3
  let (r5, s5) := mathRandom rnd s4
  let (scale, s6) := mathRandom rnd s5
  let donut : Mesh :=
    { geometry := donutGeometry
      material := Material.donutMaterial
      position := ⟨(r1 - 0.5) * 15, (r2 - 0.5) * 15, (r3 - 0.5) * 15⟩
      rotation := ⟨r4 * MathPI, r5 * MathPI, 0⟩
      scale := ⟨scale, scale, scale⟩ }
  sceneAdd (Object3D.mesh donut) s6

/-- The loop `for (let i = 0; i < 1000; i++) { ... }`, entered at counter `i`. -/
def donutLoop (rnd : ℕ → ℚ) (i : ℕ) (s : State σ) : State σ :=
  if i < 1000 then donutLoop rnd (i + 1) (donutBody rnd s) else s
termination_by 1000 - i

/-- The callback passed to `fontLoader.load`: one text mesh, then the donuts. -/
def onFontLoad (rnd : ℕ → ℚ) (s : State σ) : State σ :=
  donutLoop rnd 0 (sceneAdd (Object3D.mesh textMesh) s)

/-! ## Resize and pointer handlers -/

/-- The `resize` listener. -/
def onResize (w : Window) (s : State σ) : State σ :=
  let sizes : Sizes :=
    { width := w.innerWidth
      height := w.innerHeight
      halfWidth := w.innerWidth / 2
      halfHeight := w.innerHeight / 2 }
  let aspect := sizes.width / sizes.height
  { s with
    sizes := sizes
    camera := { s.camera with aspect := aspect, projectionAspect := aspect }
    renderer :=
      { width := sizes.width
        height := sizes.height
        pixelRatio := min w.devicePixelRatio 2 } }

/-- The `pointermove` listener. -/
def onPointerMove (e : PointerEvent) (s : State σ) : State σ :=
  if e.isPrimary = false then s
  else
    { s with
      mouse :=
        { x := (e.clientX - s.sizes.halfWidth) * 0.02
          y := (e.clientY - s.sizes.halfHeight) * 0.02 } }

/-! ## Click: texture selection -/

/-- The function `getRandomInt`: `Math.ceil(Math.random() * max)`. -/
def getRandomInt (rnd : ℕ → ℚ) (max : ℚ) (s : State σ) : ℤ × State σ :=
  let (r, s1) := mathRandom rnd s
  (⌈r * max⌉, s1)

/-- The function `getRandomTexture`. -/
def getRandomTexture (rnd : ℕ → ℚ) (s : State σ) : State σ :=
  let (n, s1) := getRandomInt rnd 12 s
  let s2 := { s1 with matcapIndex := n }
  { s2 with matcapImageSrc := matcapPath s2.donutMatcapIndex }

/-- The function `getRandomDonutTexture`. -/
def getRandomDonutTexture (rnd : ℕ → ℚ) (s : State σ) : State σ :=
  let (n, s1) := getRandomInt rnd 12 s
  let s2 := { s1 with donutMatcapIndex := n }
  { s2 with donutMatcapImageSrc := matcapPath s2.donutMatcapIndex }

/-- The `click` listener. -/
def onClick (rnd : ℕ → ℚ) (s : State σ) : State σ :=
  getRandomDonutTexture rnd (getRandomTexture rnd s)

/-- The state after `n` clicks in a row. -/
def clicks (rnd : ℕ → ℚ) : ℕ → State σ → State σ
  | 0, s => s
  | n + 1, s => clicks rnd n (onClick rnd s)

/-! ## Frame loop -/

/-- The two easing assignments of `tick`:
`camera.position.x += (mouse.x - camera.position.x) * 0.04` and
`camera.position.y += (-mouse.y - camera.position.y) * 0.04`. -/
def easeCamera (mouse : Vec2) (p : Vec3) : Vec3 :=
  let p1 : Vec3 := { p with x := p.x + (mouse.x - p.x) * 0.04 }
  { p1 with y := p1.y + (-mouse.y - p1.y) * 0.04 }

/-- The function `tick`. -/
def tick (update : σ → Vec3 → σ × Vec3) (s : State σ) : State σ :=
  let s0 := { s with frameLog := s.frameLog ++ [Effect.getElapsedTime] }
  let (c, p) := update s0.controls s0.camera.position
  let s1 :=
    { s0 with
      controls := c
      camera := { s0.camera with position := p }
      frameLog := s0.frameLog ++ [Effect.controlsUpdate] }
  let s2 :=
    { s1 with camera := { s1.camera with position := easeCamera s1.mouse s1.camera.position } }
  let s3 := { s2 with frameLog := s2.frameLog ++ [Effect.render s2.camera.position] }
  { s3 with frameLog := s3.frameLog ++ [Effect.requestAnimationFrame] }

/-- The easing of `n` successive frames with the pointer held at `mouse` and
the controller leaving the camera where it is. -/
def easeFrames (mouse : Vec2) : ℕ → Vec3 → Vec3
  | 0, p => p
  | n + 1, p => easeFrames mouse n (easeCamera mouse p)

/-- Number of `requestAnimationFrame` calls in a log. -/
def rescheduleCount (log : List Effect) : ℕ :=
  (log.filter (fun e => decide (e = Effect.requestAnimationFrame))).length

/-- Number of `renderer.render` calls in a log. -/
def renderCount (log : List Effect) : ℕ :=
  (log.filter (fun e => match e with
    | Effect.render _ => true
    | _ => false)).length

/-- The transform ranges of one mesh of the instance field: torus geometry,
donut material, position in `[-7.5, 7.5]` per axis, rotation x and y in
`[0, Math.PI]`, one scale on the three axes. -/
def InstanceInRange (d : Mesh) : Prop :=
  d.geometry = donutGeometry ∧ d.material = Material.donutMaterial ∧
  (-7.5 ≤ d.position.x ∧ d.position.x ≤ 7.5) ∧
  (-7.5 ≤ d.position.y ∧ d.position.y ≤ 7.5) ∧
  (-7.5 ≤ d.position.z ∧ d.position.z ≤ 7.5) ∧
  (0 ≤ d.rotation.x ∧ d.rotation.x ≤ MathPI) ∧
  (0 ≤ d.rotation.y ∧ d.rotation.y ≤ MathPI) ∧
  d.scale.x = d.scale.y ∧ d.scale.y = d.scale.z

/-- The mesh one pass of the loop builds when its six draws are the calls
number `c`, ..., `c + 5` of `Math.random()`: position from the first three,
rotation x and y from the next two, the three scale axes from the sixth. -/
def instanceAt (rnd : ℕ → ℚ) (c : ℕ) : Mesh :=
  { geometry := donutGeometry
    material := Material.donutMaterial
    position := ⟨(rnd c - 0.5) * 15, (rnd (c + 1) - 0.5) * 15, (rnd (c + 2) - 0.5) * 15⟩
    rotation := ⟨rnd (c + 3) * MathPI, rnd (c + 4) * MathPI, 0⟩
    scale := ⟨rnd (c + 5), rnd (c + 5), rnd (c + 5)⟩ }

/-! ## Resize handler -/

/-- C5: after a resize to positive window dimensions `(w, h)` the viewport
state has `width = w`, `height = h`, `halfWidth = width / 2`,
`halfHeight = height / 2`, and the camera aspect ratio (also the one the
projection was recomputed from) equals `width / height`. -/
theorem onResize_sizes (w : Window) (s : State σ)
    (hw : 0 < w.innerWidth) (hh : 0 < w.innerHeight) :
    (onResize w s).sizes.width = w.innerWidth ∧
    (onResize w s).sizes.height = w.innerHeight ∧
    (onResize w s).sizes.halfWidth = (onResize w s).sizes.width / 2 ∧
    (onResize w s).sizes.halfHeight = (onResize w s).sizes.height / 2 ∧
    0 < (onResize w s).sizes.halfWidth ∧ 0 < (onResize w s).sizes.halfHeight ∧
    (onResize w s).camera.aspect = (onResize w s).sizes.width / (onResize w s).sizes.height ∧
    (onResize w s).camera.projectionAspect = (onResize w s).camera.aspect := by
  refine ⟨rfl, rfl, rfl, rfl, ?_, ?_, rfl, rfl⟩
  · show 0 < w.innerWidth / 2
    positivity
  · show 0 < w.innerHeight / 2
    positivity

/-- Witness for C5: a resize to 1000 x 800 gives sizes (1000, 800, 500, 400)
and aspect 5/4. -/
theorem onResize_sizes_witness :
    (onResize ⟨1000, 800, 1⟩ (init ⟨640, 480, 1⟩ ())).sizes = ⟨1000, 800, 500, 400⟩ ∧
    (onResize ⟨1000, 800, 1⟩ (init ⟨640, 480, 1⟩ ())).camera.aspect = 5 / 4 := by
  have h := onResize_sizes ⟨1000, 800, 1⟩ (init ⟨640, 480, 1⟩ ())
    (by norm_num) (by norm_num)
  obtain ⟨h1, h2, h3, h4, -, -, h5, -⟩ := h
  refine ⟨?_, ?_⟩
  · simp only [onResize]
    norm_num
  · rw [h5, h1, h2]
    norm_num

/-- C9: the resize handler is idempotent: run twice with the same window
dimensions it yields the same state (viewport, camera aspect, renderer size
and pixel ratio, and everything else) as run once, and the pixel ratio it
leaves is `min(devicePixelRatio, 2)`. -/
theorem onResize_idempotent (w : Window) (s : State σ) :
    onResize w (onResize w s) = onResize w s ∧
    (onResize w (onResize w s)).sizes = (onResize w s).sizes ∧
    (onResize w (onResize w s)).camera = (onResize w s).camera ∧
    (onResize w (onResize w s)).renderer = (onResize w s).renderer ∧
    (onResize w s).renderer =
      ⟨w.innerWidth, w.innerHeight, min w.devicePixelRatio 2⟩ := by
  refine ⟨rfl, rfl, rfl, rfl, rfl⟩

/-! ## Pointer handler -/

/-- C3: a pointer-move event from the primary pointer at `(cx, cy)` leaves
the pointer offset at `((cx - halfWidth) * 0.02, (cy - halfHeight) * 0.02)`,
unclamped, and changes nothing else. -/
theorem onPointerMove_primary (e : PointerEvent) (s : State σ)
    (hp : e.isPrimary = true) :
    (onPointerMove e s).mouse =
      ⟨(e.clientX - s.sizes.halfWidth) * 0.02, (e.clientY - s.sizes.halfHeight) * 0.02⟩ ∧
    onPointerMove e s = { s with mouse := (onPointerMove e s).mouse } := by
  simp [onPointerMove, hp]

/-- Witness for C3: viewport 1000 x 800 and pointer at (600, 300) give the
offset (2, -2). -/
theorem onPointerMove_primary_witness :
    (init ⟨1000, 800, 1⟩ ()).sizes.halfWidth = 500 ∧
    (init ⟨1000, 800, 1⟩ ()).sizes.halfHeight = 400 ∧
    (onPointerMove ⟨true, 600, 300⟩ (init ⟨1000, 800, 1⟩ ())).mouse = ⟨2, -2⟩ := by
  have h := (onPointerMove_primary ⟨true, 600, 300⟩ (init ⟨1000, 800, 1⟩ ()) rfl).1
  refine ⟨?_, ?_, ?_⟩
  · simp only [init]
    norm_num
  · simp only [init]
    norm_num
  · rw [h]
    simp only [init]
    norm_num

/-- C4: a pointer-move event that is not from the primary pointer leaves
the whole state, the pointer offset included, as it was. -/
theorem onPointerMove_not_primary (e : PointerEvent) (s : State σ)
    (hp : e.isPrimary = false) :
    onPointerMove e s = s ∧ (onPointerMove e s).mouse = s.mouse := by
  simp [onPointerMove, hp]

/-- Witness for C4: a secondary touch at (10, 20) after a primary move to
(600, 300) on a 1000 x 800 viewport leaves the offset (2, -2) where it is. -/
theorem onPointerMove_not_primary_witness :
    onPointerMove ⟨false, 10, 20⟩
        (onPointerMove ⟨true, 600, 300⟩ (init ⟨1000, 800, 1⟩ ())) =
      onPointerMove ⟨true, 600, 300⟩ (init ⟨1000, 800, 1⟩ ()) :=
  (onPointerMove_not_primary ⟨false, 10, 20⟩
    (onPointerMove ⟨true, 600, 300⟩ (init ⟨1000, 800, 1⟩ ())) rfl).1

/-! ## Frame loop -/

/-- One easing step leaves `z` alone and moves `x`, `y` by 0.04 of the gap. -/
theorem easeCamera_eq (mouse : Vec2) (p : Vec3) :
    easeCamera mouse p =
      ⟨p.x + (mouse.x - p.x) * 0.04, p.y + (-mouse.y - p.y) * 0.04, p.z⟩ := rfl

/-- What `tick` leaves in each field it writes. -/
theorem tick_fields (update : σ → Vec3 → σ × Vec3) (s : State σ) :
    (tick update s).camera.position =
      easeCamera s.mouse (update s.controls s.camera.position).2 ∧
    (tick update s).controls = (update s.controls s.camera.position).1 ∧
    (tick update s).mouse = s.mouse ∧
    (tick update s).frameLog = s.frameLog ++
      [Effect.getElapsedTime, Effect.controlsUpdate,
       Effect.render (easeCamera s.mouse (update s.controls s.camera.position).2),
       Effect.requestAnimationFrame] := by
  simp [tick]

/-- C6: with `(x, y, z)` the camera position left by the controller update
and `(mx, my)` the pointer offset, one tick sets the camera position to
`(x + (mx - x) * 0.04, y + (-my - y) * 0.04, z)`; at offset (2, -2) and
camera (1, 1, 2) (controller leaving the camera in place) the new x and y are
both 1.04. -/
theorem tick_camera_easing (update : σ → Vec3 → σ × Vec3) (s : State σ) :
    (tick update s).camera.position =
      ⟨(update s.controls s.camera.position).2.x +
          (s.mouse.x - (update s.controls s.camera.position).2.x) * 0.04,
        (update s.controls s.camera.position).2.y +
          (-s.mouse.y - (update s.controls s.camera.position).2.y) * 0.04,
        (update s.controls s.camera.position).2.z⟩ ∧
    (tick (fun (c : Unit) (p : Vec3) => (c, p))
        (onPointerMove ⟨true, 600, 300⟩ (init ⟨1000, 800, 1⟩ ()))).camera.position =
      ⟨1.04, 1.04, 2⟩ := by
  refine ⟨?_, ?_⟩
  · rw [(tick_fields update s).1, easeCamera_eq]
  · rw [(tick_fields _ _).1, easeCamera_eq]
    simp only [onPointerMove, init]
    norm_num

/-- The reschedule and render counts of a log extended by one tick. -/
theorem tick_counts (update : σ → Vec3 → σ × Vec3) (s : State σ) :
    rescheduleCount (tick update s).frameLog = rescheduleCount s.frameLog + 1 ∧
    renderCount (tick update s).frameLog = renderCount s.frameLog + 1 := by
  rw [(tick_fields update s).2.2.2]
  simp [rescheduleCount, renderCount, List.filter_cons]

/-- C7: every tick appends to the log, in this order, the clock read, the
controller update, one render taken at the eased position of what the
controller left, and one reschedule; the position it leaves is that eased
position; and after any number `n` of ticks the log holds `n` more renders and
`n` more reschedules (no tick skips the reschedule). -/
theorem tick_effect_order (update : σ → Vec3 → σ × Vec3) (s : State σ) :
    (tick update s).frameLog = s.frameLog ++
      [Effect.getElapsedTime, Effect.controlsUpdate,
       Effect.render (easeCamera s.mouse (update s.controls s.camera.position).2),
       Effect.requestAnimationFrame] ∧
    (tick update s).camera.position =
      easeCamera s.mouse (update s.controls s.camera.position).2 ∧
    ∀ n : ℕ,
      rescheduleCount ((tick update)^[n] s).frameLog = rescheduleCount s.frameLog + n ∧
      renderCount ((tick update)^[n] s).frameLog = renderCount s.frameLog + n := by
  refine ⟨(tick_fields update s).2.2.2, (tick_fields update s).1, ?_⟩
  intro n
  induction n generalizing s with
  | zero => simp
  | succ k ih =>
    rw [Function.iterate_succ_apply]
    obtain ⟨h1, h2⟩ := ih (tick update s)
    obtain ⟨c1, c2⟩ := tick_counts update s
    rw [h1, h2, c1, c2]
    constructor <;> ring

/-- One easing step scales both gaps to the target by 0.96. -/
theorem easeCamera_gap (mouse : Vec2) (p : Vec3) :
    mouse.x - (easeCamera mouse p).x = 0.96 * (mouse.x - p.x) ∧
    -mouse.y - (easeCamera mouse p).y = 0.96 * (-mouse.y - p.y) ∧
    (easeCamera mouse p).z = p.z := by
  rw [easeCamera_eq]
  refine ⟨?_, ?_, rfl⟩ <;> norm_num <;> ring

/-- After `n` easing steps both gaps are scaled by `0.96 ^ n`. -/
theorem easeFrames_gap (mouse : Vec2) (n : ℕ) (p : Vec3) :
    mouse.x - (easeFrames mouse n p).x = 0.96 ^ n * (mouse.x - p.x) ∧
    -mouse.y - (easeFrames mouse n p).y = 0.96 ^ n * (-mouse.y - p.y) := by
  induction n generalizing p with
  | zero => simp [easeFrames]
  | succ k ih =>
    obtain ⟨hx, hy⟩ := ih (easeCamera mouse p)
    obtain ⟨gx, gy, -⟩ := easeCamera_gap mouse p
    simp only [easeFrames]
    rw [hx, hy, gx, gy]
    constructor <;> ring

/-- Ticks whose controller leaves the camera in place ease it frame by frame. -/
theorem tick_iterate_position (s : State σ) (n : ℕ) :
    ((tick (fun (c : σ) (p : Vec3) => (c, p)))^[n] s).camera.position =
      easeFrames s.mouse n s.camera.position := by
  induction n generalizing s with
  | zero => rfl
  | succ k ih =>
    rw [Function.iterate_succ_apply, ih (tick _ s)]
    obtain ⟨h1, -, h3, -⟩ := tick_fields (fun (c : σ) (p : Vec3) => (c, p)) s
    rw [h1, h3]
    rfl

/-- C10: the easing is a contraction toward `(mx, -my)` with factor 0.96:
one step scales each gap by 0.96, `n` steps with the target held fixed (as
`n` ticks perform them when the controller leaves the camera in place) scale
it by `0.96 ^ n`, the gap keeps its sign and does not grow (no overshoot),
and a camera already at `(mx, -my)` stays where it is. -/
theorem easeCamera_contraction (mouse : Vec2) (p : Vec3) :
    (mouse.x - (easeCamera mouse p).x = 0.96 * (mouse.x - p.x) ∧
      -mouse.y - (easeCamera mouse p).y = 0.96 * (-mouse.y - p.y)) ∧
    (∀ n : ℕ,
      mouse.x - (easeFrames mouse n p).x = 0.96 ^ n * (mouse.x - p.x) ∧
      -mouse.y - (easeFrames mouse n p).y = 0.96 ^ n * (-mouse.y - p.y) ∧
      0 ≤ (mouse.x - (easeFrames mouse n p).x) * (mouse.x - p.x) ∧
      0 ≤ (-mouse.y - (easeFrames mouse n p).y) * (-mouse.y - p.y) ∧
      |mouse.x - (easeFrames mouse n p).x| ≤ |mouse.x - p.x| ∧
      |-mouse.y - (easeFrames mouse n p).y| ≤ |-mouse.y - p.y|) ∧
    (∀ (s : State σ) (n : ℕ),
      ((tick (fun (c : σ) (q : Vec3) => (c, q)))^[n] s).camera.position =
        easeFrames s.mouse n s.camera.position) ∧
    (∀ z : ℚ, easeCamera mouse ⟨mouse.x, -mouse.y, z⟩ = ⟨mouse.x, -mouse.y, z⟩) := by
  refine ⟨⟨(easeCamera_gap mouse p).1, (easeCamera_gap mouse p).2.1⟩, ?_,
    tick_iterate_position, ?_⟩
  · intro n
    obtain ⟨hx, hy⟩ := easeFrames_gap mouse n p
    have h0 : (0 : ℚ) ≤ 0.96 ^ n := by positivity
    have h1 : (0.96 : ℚ) ^ n ≤ 1 := pow_le_one₀ (by norm_num) (by norm_num)
    refine ⟨hx, hy, ?_, ?_, ?_, ?_⟩
    · rw [hx, mul_assoc]
      exact mul_nonneg h0 (mul_self_nonneg _)
    · rw [hy, mul_assoc]
      exact mul_nonneg h0 (mul_self_nonneg _)
    · rw [hx, abs_mul, abs_of_nonneg h0]
      exact mul_le_of_le_one_left (abs_nonneg _) h1
    · rw [hy, abs_mul, abs_of_nonneg h0]
      exact mul_le_of_le_one_left (abs_nonneg _) h1
  · intro z
    rw [easeCamera_eq]
    simp

/-! ## Click: texture selection -/

/-- What `getRandomInt` returns and the draw it consumes. -/
theorem getRandomInt_eq (rnd : ℕ → ℚ) (max : ℚ) (s : State σ) :
    getRandomInt rnd max s =
      (⌈rnd s.randomCalls * max⌉, { s with randomCalls := s.randomCalls + 1 }) := rfl

/-- A draw in `[0, 1)` gives `getRandomInt(12)` in `[0, 12]`; a draw in
`(0, 1)` gives it in `[1, 12]`; the draw `0` gives `0`. -/
theorem ceil_draw_range (r : ℚ) (h0 : 0 ≤ r) (h1 : r < 1) :
    0 ≤ ⌈r * 12⌉ ∧ ⌈r * 12⌉ ≤ 12 ∧ (0 < r → 1 ≤ ⌈r * 12⌉) ∧ (r = 0 → ⌈r * 12⌉ = 0) := by
  refine ⟨?_, ?_, ?_, ?_⟩
  · exact Int.ceil_nonneg (by positivity)
  · rw [Int.ceil_le]
    push_cast
    linarith
  · intro hr
    have h : 0 < ⌈r * 12⌉ := Int.ceil_pos.mpr (by positivity)
    omega
  · intro hr
    simp [hr]

/-- The fields written by one click, in terms of the two draws it consumes. -/
theorem onClick_fields (rnd : ℕ → ℚ) (s : State σ) :
    (onClick rnd s).matcapIndex = ⌈rnd s.randomCalls * 12⌉ ∧
    (onClick rnd s).donutMatcapIndex = ⌈rnd (s.randomCalls + 1) * 12⌉ ∧
    (onClick rnd s).matcapImageSrc = matcapPath s.donutMatcapIndex ∧
    (onClick rnd s).donutMatcapImageSrc = matcapPath ⌈rnd (s.randomCalls + 1) * 12⌉ ∧
    (onClick rnd s).randomCalls = s.randomCalls + 2 := by
  simp [onClick, getRandomDonutTexture, getRandomTexture, getRandomInt, mathRandom]

/-- When no draw is exactly 0, both indices are in `[1, 12]` after any
positive number of clicks. -/
theorem clicks_index_range_of_pos (rnd : ℕ → ℚ) (h : ∀ k, 0 < rnd k ∧ rnd k < 1)
    (n : ℕ) (hn : 1 ≤ n) (s : State σ) :
    (1 ≤ (clicks rnd n s).matcapIndex ∧ (clicks rnd n s).matcapIndex ≤ 12) ∧
    (1 ≤ (clicks rnd n s).donutMatcapIndex ∧ (clicks rnd n s).donutMatcapIndex ≤ 12) := by
  induction n generalizing s with
  | zero => omega
  | succ k ih =>
    simp only [clicks]
    rcases Nat.eq_zero_or_pos k with hk | hk
    · subst hk
      simp only [clicks]
      obtain ⟨e1, e2, -, -, -⟩ := onClick_fields rnd s
      rw [e1, e2]
      have a := ceil_draw_range (rnd s.randomCalls) (h _).1.le (h _).2
      have b := ceil_draw_range (rnd (s.randomCalls + 1)) (h _).1.le (h _).2
      exact ⟨⟨a.2.2.1 (h _).1, a.2.1⟩, ⟨b.2.2.1 (h _).1, b.2.1⟩⟩
    · exact ih hk (onClick rnd s)

/-- C1 at its failing input: the draws `0, 0` are in `[0, 1)`, and one click
that consumes them leaves both appearance indices at 0, outside `[1, 12]`,
and requests the image `/textures/matcaps/0.png` for the donuts. -/
theorem clicks_zero_draw_index :
    (∀ k : ℕ, (0 : ℚ) ≤ (fun _ => 0) k ∧ (fun _ => (0 : ℚ)) k < 1) ∧
    (clicks (fun _ => 0) 1 (init ⟨1000, 800, 1⟩ ())).matcapIndex = 0 ∧
    (clicks (fun _ => 0) 1 (init ⟨1000, 800, 1⟩ ())).donutMatcapIndex = 0 ∧
    (clicks (fun _ => 0) 1 (init ⟨1000, 800, 1⟩ ())).donutMatcapImageSrc =
      "/textures/matcaps/0.png" ∧
    ¬ (1 ≤ (clicks (fun _ => 0) 1 (init ⟨1000, 800, 1⟩ ())).matcapIndex) := by
  have h := onClick_fields (fun _ => (0 : ℚ)) (init ⟨1000, 800, 1⟩ ())
  obtain ⟨e1, e2, -, e4, -⟩ := h
  simp only [clicks]
  rw [e1, e2, e4]
  refine ⟨fun k => ⟨le_refl _, by norm_num⟩, by simp, by simp, ?_, by simp⟩
  simp only [zero_mul, Int.ceil_zero]
  decide

/-- C2 at its failing input: from the start state (both indices 3), a click
drawing 1/2 and 3/4 selects text index 6 and donut index 9, yet the path it
assigns to the text image is `/textures/matcaps/3.png` (built from the donut
index held before the click), not `/textures/matcaps/6.png`; the donut path
is built from the donut index just drawn. -/
theorem onClick_text_path_mismatch :
    (onClick (fun k => if k = 0 then 1 / 2 else 3 / 4) (init ⟨1000, 800, 1⟩ ())).matcapIndex
      = 6 ∧
    (onClick (fun k => if k = 0 then 1 / 2 else 3 / 4)
      (init ⟨1000, 800, 1⟩ ())).donutMatcapIndex = 9 ∧
    (onClick (fun k => if k = 0 then 1 / 2 else 3 / 4)
      (init ⟨1000, 800, 1⟩ ())).matcapImageSrc = "/textures/matcaps/3.png" ∧
    (onClick (fun k => if k = 0 then 1 / 2 else 3 / 4)
      (init ⟨1000, 800, 1⟩ ())).matcapImageSrc ≠ matcapPath 6 ∧
    (onClick (fun k => if k = 0 then 1 / 2 else 3 / 4)
      (init ⟨1000, 800, 1⟩ ())).donutMatcapImageSrc = "/textures/matcaps/9.png" := by
  obtain ⟨e1, e2, e3, e4, -⟩ :=
    onClick_fields (fun k => if k = 0 then (1 / 2 : ℚ) else 3 / 4) (init ⟨1000, 800, 1⟩ ())
  have c1 : ⌈(1 / 2 : ℚ) * 12⌉ = 6 := by norm_num
  have c2 : ⌈(3 / 4 : ℚ) * 12⌉ = 9 := by norm_num
  rw [e1, e2, e3, e4]
  simp only [init, Nat.zero_add, if_true, one_ne_zero, if_false, c1, c2]
  refine ⟨trivial, trivial, ?_, ?_, ?_⟩ <;> decide

/-! ## Font-load callback: the instance field -/

/-- The double `Math.PI` lies below π. -/
theorem MathPI_le_pi : ((MathPI : ℚ) : ℝ) ≤ Real.pi := by
  have h := Real.pi_gt_d20
  have e : ((MathPI : ℚ) : ℝ) = 884279719003555 / 281474976710656 := by
    simp only [MathPI]
    push_cast
    rfl
  rw [e]
  have : (884279719003555 / 281474976710656 : ℝ) < 3.14159265358979323846 := by norm_num
  linarith

/-- One pass of the loop body consumes the next six draws and appends the
mesh built from them; nothing else changes. -/
theorem donutBody_eq (rnd : ℕ → ℚ) (s : State σ) :
    donutBody rnd s =
      { s with
        scene := s.scene ++ [Object3D.mesh (instanceAt rnd s.randomCalls)]
        randomCalls := s.randomCalls + 6 } := rfl

/-- For draws in `[0, 1)` the mesh built from six draws is within the ranges,
and its scale is the sixth draw, in `[0, 1)`. -/
theorem instanceAt_inRange (rnd : ℕ → ℚ) (h : ∀ k, 0 ≤ rnd k ∧ rnd k < 1) (c : ℕ) :
    InstanceInRange (instanceAt rnd c) ∧
    (instanceAt rnd c).scale.x = rnd (c + 5) ∧
    0 ≤ (instanceAt rnd c).scale.x ∧ (instanceAt rnd c).scale.x < 1 := by
  have hpi : (0 : ℚ) ≤ MathPI := by
    simp only [MathPI]
    norm_num
  have a0 := h c
  have a1 := h (c + 1)
  have a2 := h (c + 2)
  have a3 := h (c + 3)
  have a4 := h (c + 4)
  have a5 := h (c + 5)
  refine ⟨⟨rfl, rfl, ⟨?_, ?_⟩, ⟨?_, ?_⟩, ⟨?_, ?_⟩, ⟨?_, ?_⟩, ⟨?_, ?_⟩, rfl, rfl⟩,
    rfl, a5.1, a5.2⟩
  · show -7.5 ≤ (rnd c - 0.5) * 15
    norm_num
    linarith [a0.1]
  · show (rnd c - 0.5) * 15 ≤ 7.5
    norm_num
    linarith [a0.2]
  · show -7.5 ≤ (rnd (c + 1) - 0.5) * 15
    norm_num
    linarith [a1.1]
  · show (rnd (c + 1) - 0.5) * 15 ≤ 7.5
    norm_num
    linarith [a1.2]
  · show -7.5 ≤ (rnd (c + 2) - 0.5) * 15
    norm_num
    linarith [a2.1]
  · show (rnd (c + 2) - 0.5) * 15 ≤ 7.5
    norm_num
    linarith [a2.2]
  · exact mul_nonneg a3.1 hpi
  · exact mul_le_of_le_one_left hpi a3.2.le
  · exact mul_nonneg a4.1 hpi
  · exact mul_le_of_le_one_left hpi a4.2.le

/-- The loop entered at counter `i` runs its body `1000 - i` times. -/
theorem donutLoop_eq_iterate (rnd : ℕ → ℚ) (k i : ℕ) (s : State σ) (h : i + k = 1000) :
    donutLoop rnd i s = (donutBody rnd)^[k] s := by
  induction k generalizing i s with
  | zero =>
    rw [donutLoop, if_neg (by omega)]
    rfl
  | succ j ih =>
    rw [donutLoop, if_pos (by omega), ih (i + 1) (donutBody rnd s) (by omega)]
    rfl

/-- Running the loop body `k` times consumes `6 * k` draws and appends, in
order, the meshes built from the draws `6 * i, ..., 6 * i + 5` past the ones
already consumed, for `i = 0, ..., k - 1`. -/
theorem donutBody_iterate (rnd : ℕ → ℚ) (k : ℕ) (s : State σ) :
    ((donutBody rnd)^[k] s).scene =
      s.scene ++ ((List.range k).map
        (fun i => instanceAt rnd (s.randomCalls + 6 * i))).map Object3D.mesh ∧
    ((donutBody rnd)^[k] s).randomCalls = s.randomCalls + 6 * k := by
  induction k with
  | zero => simp
  | succ j ih =>
    obtain ⟨hscene, hcalls⟩ := ih
    rw [Function.iterate_succ_apply', donutBody_eq]
    refine ⟨?_, ?_⟩
    · show ((donutBody rnd)^[j] s).scene ++
        [Object3D.mesh (instanceAt rnd ((donutBody rnd)^[j] s).randomCalls)] = _
      rw [hscene, hcalls, List.range_succ]
      simp
    · show ((donutBody rnd)^[j] s).randomCalls + 6 = _
      rw [hcalls]
      ring

/-- C8: for draws in `[0, 1)`, the font-load callback appends to the scene
exactly one text mesh followed by exactly 1000 torus meshes and consumes 6000
draws. The `i`-th torus mesh is built from the draws number `6 * i` to
`6 * i + 5` past those already consumed: position from the first three,
rotation x and y from the next two, and the sixth draw as the scale of all
three axes. Each has position x, y, z in `[-7.5, 7.5]`, rotation x and y in
`[0, Math.PI]` (hence in `[0, π]`), and `scale.x = scale.y = scale.z`, a value
in `[0, 1)`. -/
theorem onFontLoad_instances (rnd : ℕ → ℚ) (h : ∀ k, 0 ≤ rnd k ∧ rnd k < 1)
    (s : State σ) :
    ∃ donuts : List Mesh, donuts.length = 1000 ∧
      (onFontLoad rnd s).scene =
        s.scene ++ Object3D.mesh textMesh :: donuts.map Object3D.mesh ∧
      (onFontLoad rnd s).randomCalls = s.randomCalls + 6000 ∧
      (∀ i : ℕ, i < 1000 → donuts[i]? = some
        { geometry := donutGeometry
          material := Material.donutMaterial
          position :=
            ⟨(rnd (s.randomCalls + 6 * i) - 0.5) * 15,
              (rnd (s.randomCalls + 6 * i + 1) - 0.5) * 15,
              (rnd (s.randomCalls + 6 * i + 2) - 0.5) * 15⟩
          rotation :=
            ⟨rnd (s.randomCalls + 6 * i + 3) * MathPI,
              rnd (s.randomCalls + 6 * i + 4) * MathPI, 0⟩
          scale :=
            ⟨rnd (s.randomCalls + 6 * i + 5), rnd (s.randomCalls + 6 * i + 5),
              rnd (s.randomCalls + 6 * i + 5)⟩ }) ∧
      ∀ d ∈ donuts,
        d.geometry = donutGeometry ∧ d.geometry ≠ textMesh.geometry ∧
        (-7.5 ≤ d.position.x ∧ d.position.x ≤ 7.5) ∧
        (-7.5 ≤ d.position.y ∧ d.position.y ≤ 7.5) ∧
        (-7.5 ≤ d.position.z ∧ d.position.z ≤ 7.5) ∧
        (0 ≤ d.rotation.x ∧ d.rotation.x ≤ MathPI ∧ ((d.rotation.x : ℚ) : ℝ) ≤ Real.pi) ∧
        (0 ≤ d.rotation.y ∧ d.rotation.y ≤ MathPI ∧ ((d.rotation.y : ℚ) : ℝ) ≤ Real.pi) ∧
        (d.scale.x = d.scale.y ∧ d.scale.y = d.scale.z) ∧
        (0 ≤ d.scale.x ∧ d.scale.x < 1) := by
  obtain ⟨hscene, hcalls⟩ :=
    donutBody_iterate rnd 1000 (sceneAdd (Object3D.mesh textMesh) s)
  refine ⟨(List.range 1000).map (fun i => instanceAt rnd (s.randomCalls + 6 * i)),
    by simp, ?_, ?_, ?_, ?_⟩
  · rw [onFontLoad, donutLoop_eq_iterate rnd 1000 0 _ rfl, hscene]
    simp [sceneAdd]
  · rw [onFontLoad, donutLoop_eq_iterate rnd 1000 0 _ rfl, hcalls]
    rfl
  · intro i hi
    rw [List.getElem?_map, List.getElem?_range hi]
    rfl
  · intro d hd
    obtain ⟨i, -, rfl⟩ := List.mem_map.mp hd
    obtain ⟨⟨g, -, px, py, pz, rx, ry, sxy, syz⟩, -, s0, s1⟩ :=
      instanceAt_inRange rnd h (s.randomCalls + 6 * i)
    have up : ∀ q : ℚ, q ≤ MathPI → ((q : ℚ) : ℝ) ≤ Real.pi := fun q hq =>
      le_trans (by exact_mod_cast hq) MathPI_le_pi
    refine ⟨g, ?_, px, py, pz, ⟨rx.1, rx.2, up _ rx.2⟩, ⟨ry.1, ry.2, up _ ry.2⟩,
      ⟨sxy, syz⟩, ⟨s0, s1⟩⟩
    rw [g]
    simp [donutGeometry, textMesh]

/-- Witness for C8: with the `k`-th draw equal to `1 / (k + 2)` the callback,
run on the start state, appends the text mesh and 1000 torus meshes to the
axes helper and the camera; the first torus mesh, built from the draws 1/2,
1/3, 1/4, 1/5, 1/6, 1/7, sits at (0, -5/2, -15/4), is rotated by
(Math.PI / 5, Math.PI / 6), and has scale 1/7 on every axis; the second has
scale 1/13. -/
theorem onFontLoad_instances_witness :
    ∃ donuts : List Mesh, donuts.length = 1000 ∧
      (onFontLoad (fun k => 1 / ((k : ℚ) + 2)) (init ⟨1000, 800, 1⟩ ())).scene =
        [Object3D.axesHelper, Object3D.camera] ++
          Object3D.mesh textMesh :: donuts.map Object3D.mesh ∧
      donuts[0]? = some
        { geometry := donutGeometry
          material := Material.donutMaterial
          position := ⟨0, -5 / 2, -15 / 4⟩
          rotation := ⟨MathPI / 5, MathPI / 6, 0⟩
          scale := ⟨1 / 7, 1 / 7, 1 / 7⟩ } ∧
      (donuts[1]?.map fun d => d.scale) = some ⟨1 / 13, 1 / 13, 1 / 13⟩ := by
  have hr : ∀ k : ℕ, (0 : ℚ) ≤ 1 / ((k : ℚ) + 2) ∧ 1 / ((k : ℚ) + 2) < 1 := by
    intro k
    have hk : (0 : ℚ) ≤ (k : ℚ) := Nat.cast_nonneg k
    refine ⟨by positivity, ?_⟩
    rw [div_lt_one (by linarith)]
    linarith
  obtain ⟨ds, hlen, hscene, -, hget, -⟩ :=
    onFontLoad_instances (fun k => 1 / ((k : ℚ) + 2)) hr (init ⟨1000, 800, 1⟩ ())
  refine ⟨ds, hlen, hscene, ?_, ?_⟩
  · rw [hget 0 (by norm_num)]
    simp only [init]
    norm_num
    constructor <;> ring
  · rw [hget 1 (by norm_num)]
    simp only [init]
    norm_num

end ThreeText
